import Mathlib

/-!
Shallow embedding of `pagerduty/resource_pagerduty_extension_servicenow.go`
(the ServiceNow extension resource of the terraform-provider-pagerduty fork).

Modelling conventions:
* Go strings are `String`; machine time is modelled in whole seconds.
* The remote API client (`go-pagerduty`'s `Extensions` service) is an abstract
  record of total functions returning `Except RemoteErr _`, mirroring the
  `(value, *Response, error)` signatures with the response metadata dropped
  (the source never inspects it).
* Terraform's `*schema.ResourceData` is the `ResourceData` record below; its
  `Set` entry point (`setAttr`) type-checks the value against the declared
  schema exactly as `helper/schema`'s field writer does: a write to a key not
  declared in the schema, or with a value not coercible to the declared type,
  fails and leaves the state unchanged, returning the error the caller may
  discard.
* `log.Printf` calls are modelled by appending the formatted line to an
  explicit log list threaded through each operation.
* The opaque `Config` field (`interface{}` in Go) is modelled as a `JsonValue`:
  the JSON document that `json.Marshal` would produce for the stored value.
-/

/-- JSON documents, the codomain of `json.Marshal` / domain of `json.Unmarshal`
for the opaque config blob. -/
inductive JsonValue where
  | str : String → JsonValue
  | num : Int → JsonValue
  | bool : Bool → JsonValue
  | null : JsonValue
  | arr : List JsonValue → JsonValue
  | obj : List (String × JsonValue) → JsonValue

/-- `PagerDutyExtensionServicenowConfig`: the six-field ServiceNow sync config
struct, with its json tags `snow_user`, `snow_password`, `sync_options`,
`target`, `task_type`, `referer`. -/
structure PagerDutyExtensionServicenowConfig where
  user : String
  password : String
  syncOptions : String
  target : String
  taskType : String
  referer : String
deriving DecidableEq, Repr

/-- The zero value of the Go struct: all fields empty, what `new(...)`
allocates before `json.Unmarshal` fills it. -/
def zeroConfig : PagerDutyExtensionServicenowConfig :=
  { user := "", password := "", syncOptions := "", target := "", taskType := "", referer := "" }

/-- `json.Marshal` of a `*PagerDutyExtensionServicenowConfig`: a JSON object
with the six tagged keys in struct-field order. -/
def serializeConfig (c : PagerDutyExtensionServicenowConfig) : JsonValue :=
  JsonValue.obj
    [("snow_user", JsonValue.str c.user),
     ("snow_password", JsonValue.str c.password),
     ("sync_options", JsonValue.str c.syncOptions),
     ("target", JsonValue.str c.target),
     ("task_type", JsonValue.str c.taskType),
     ("referer", JsonValue.str c.referer)]

/-- One key/value pair of the incoming JSON object applied to the struct being
decoded, following `encoding/json` semantics: a known key with a string value
sets the matching field; a known key with a non-string value records a type
error (field untouched, decoding continues); unknown keys are ignored.
The `Bool` is `true` iff no type error occurred. -/
def applyConfigKey (c : PagerDutyExtensionServicenowConfig) (k : String) (v : JsonValue) :
    PagerDutyExtensionServicenowConfig × Bool :=
  if k = "snow_user" then
    match v with
    | JsonValue.str s => ({ c with user := s }, true)
    | _ => (c, false)
  else if k = "snow_password" then
    match v with
    | JsonValue.str s => ({ c with password := s }, true)
    | _ => (c, false)
  else if k = "sync_options" then
    match v with
    | JsonValue.str s => ({ c with syncOptions := s }, true)
    | _ => (c, false)
  else if k = "target" then
    match v with
    | JsonValue.str s => ({ c with target := s }, true)
    | _ => (c, false)
  else if k = "task_type" then
    match v with
    | JsonValue.str s => ({ c with taskType := s }, true)
    | _ => (c, false)
  else if k = "referer" then
    match v with
    | JsonValue.str s => ({ c with referer := s }, true)
    | _ => (c, false)
  else
    (c, true)

/-- Folds the pairs of a JSON object into the struct, accumulating whether any
field produced a type error. -/
def unmarshalFields :
    PagerDutyExtensionServicenowConfig → Bool → List (String × JsonValue) →
    PagerDutyExtensionServicenowConfig × Bool
  | c, ok, [] => (c, ok)
  | c, ok, (k, v) :: rest =>
    let r := applyConfigKey c k v
    unmarshalFields r.1 (ok && r.2) rest

/-- `json.Unmarshal(b, config)` for `config : *PagerDutyExtensionServicenowConfig`:
a JSON object is decoded field by field; any other document is a type error
leaving the struct at its zero value. The `Bool` is `true` iff decoding
reported no error (the source discards this error). -/
def unmarshalConfig : JsonValue → PagerDutyExtensionServicenowConfig × Bool
  | JsonValue.obj fields => unmarshalFields zeroConfig true fields
  | _ => (zeroConfig, false)

theorem unmarshal_serialize (c : PagerDutyExtensionServicenowConfig) :
    unmarshalConfig (serializeConfig c) = (c, true) := by
  cases c
  rfl

/-- `pagerduty.ExtensionSchemaReference`: a type tag plus identifier. -/
structure ExtensionSchemaReference where
  type : String
  id : String
deriving DecidableEq, Repr

/-- `pagerduty.ServiceReference`: a type tag plus identifier. -/
structure ServiceReference where
  type : String
  id : String
deriving DecidableEq, Repr

/-- `pagerduty.Extension`, restricted to the fields this resource reads or
writes. `extensionSchema` is a Go pointer, hence `Option`; `config` is the
JSON document of the `interface\x7b\x7d`-typed `Config` field. -/
structure Extension where
  id : String
  summary : String
  name : String
  type : String
  endpointURL : String
  htmlURL : String
  extensionSchema : Option ExtensionSchemaReference
  extensionObjects : List ServiceReference
  config : JsonValue

/-- Errors surfaced by the remote client: either a typed `*pagerduty.Error`
(HTTP status, PagerDuty error code, message) or a plain Go error. -/
inductive RemoteErr where
  | typed : Int → Int → String → RemoteErr
  | generic : String → RemoteErr
deriving DecidableEq, Repr

/-- The `err.(*pagerduty.Error)` type assertion combined with the
`perr.Code == 5001` comparison performed by Delete. -/
def errCode5001 : RemoteErr → Bool
  | RemoteErr.typed _ code _ => code == 5001
  | RemoteErr.generic _ => false

/-- Modelled from the spec: the repository's shared not-found classifier used
by `handleNotFoundError` (its definition lives outside this file's source).
The spec: the classifier "inspects an error and, if it represents true absence,
clears the identity and returns nil (vs. a wrapped retryable error otherwise)".
Genuine absence is the remote HTTP-style not-found status on a typed error. -/
def RemoteErr.isNotFound : RemoteErr → Bool
  | RemoteErr.typed status _ _ => status == 404
  | RemoteErr.generic _ => false

/-- The `go-pagerduty` `Extensions` service consumed by this resource, with
response metadata dropped(the source ignores it everywhere). -/
structure Client where
  create : Extension → Except RemoteErr Extension
  get : String → Except RemoteErr Extension
  update : String → Extension → Except RemoteErr Unit
  delete : String → Except RemoteErr Unit

/-- Values passed to `ResourceData.Set`: a string, a list of strings (a
`TypeSet` of strings), or an extension-schema reference pointer (what Read
passes for `extension_schema`). -/
inductive AttrVal where
  | str : String → AttrVal
  | strList : List String → AttrVal
  | ref : Option ExtensionSchemaReference → AttrVal

/-- `*schema.ResourceData` restricted to this resource's schema: the identity
(`Id`/`SetId`) plus the declared attributes. `extension_objects` is a set of
strings; every other attribute is a string. -/
structure ResourceData where
  id : String
  name : String
  htmlURL : String
  type : String
  endpointURL : String
  extensionObjects : List String
  extensionSchema : String
  snowUser : String
  snowPassword : String
  syncOptions : String
  target : String
  taskType : String
  referer : String
deriving DecidableEq, Repr

/-- `d.Set(key, value)`: writes the value if the key is declared in this
resource's schema and the value matches the declared type; otherwise the state
is unchanged and an error is returned (which callers in the source mostly
discard). `helper/schema` behaves this way: an unknown key or an
uncoercible value makes `Set` fail without writing. -/
def setAttr (d : ResourceData) (k : String) (v : AttrVal) : ResourceData × Option String :=
  match v with
  | AttrVal.str s =>
    if k = "name" then ({ d with name := s }, none)
    else if k = "html_url" then ({ d with htmlURL := s }, none)
    else if k = "type" then ({ d with type := s }, none)
    else if k = "endpoint_url" then ({ d with endpointURL := s }, none)
    else if k = "extension_schema" then ({ d with extensionSchema := s }, none)
    else if k = "snow_user" then ({ d with snowUser := s }, none)
    else if k = "snow_password" then ({ d with snowPassword := s }, none)
    else if k = "sync_options" then ({ d with syncOptions := s }, none)
    else if k = "target" then ({ d with target := s }, none)
    else if k = "task_type" then ({ d with taskType := s }, none)
    else if k = "referer" then ({ d with referer := s }, none)
    else (d, some ("Invalid or unknown key: " ++ k))
  | AttrVal.strList l =>
    if k = "extension_objects" then ({ d with extensionObjects := l }, none)
    else (d, some ("value type mismatch or unknown key: " ++ k))
  | AttrVal.ref _ => (d, some ("expected type string for key: " ++ k))

/-- `expandServiceNowServiceObjects`: wraps each declared identifier in a
`service_reference`-typed reference, in order. -/
def expandServiceNowServiceObjects (v : List String) : List ServiceReference :=
  v.map (fun srv => { type := "service_reference", id := srv })

/-- `flattenExtensionServicenowObjects`: keeps the identifiers of
`service_reference`-typed entries, in order; other types are dropped. -/
def flattenExtensionServicenowObjects : List ServiceReference → List String
  | [] => []
  | s :: rest =>
    if s.type = "service_reference"
    then s.id :: flattenExtensionServicenowObjects rest
    else flattenExtensionServicenowObjects rest

/-- `buildExtensionServicenowStruct`: assembles the remote payload from the
declared attributes; the six sync attributes become the opaque config blob
(modelled by the JSON document `json.Marshal` produces for the struct). -/
def buildExtensionServicenowStruct (d : ResourceData) : Extension :=
  { id := ""
    summary := ""
    name := d.name
    type := "extension"
    endpointURL := d.endpointURL
    htmlURL := ""
    extensionSchema := some { type := "extension_schema_reference", id := d.extensionSchema }
    extensionObjects := expandServiceNowServiceObjects d.extensionObjects
    config := serializeConfig
      { user := d.snowUser, password := d.snowPassword, syncOptions := d.syncOptions,
        target := d.target, taskType := d.taskType, referer := d.referer } }

/-- Modelled from the spec: `handleNotFoundError(err, d)` (shared helper, not
in this file's source). Per the spec it "inspects an error and, if it
represents true absence, clears the identity and returns nil (vs. a wrapped
retryable error otherwise)". -/
def handleNotFoundError (e : RemoteErr) (d : ResourceData) : Option RemoteErr × ResourceData :=
  if e.isNotFound then (none, { d with id := "" })
  else (some (RemoteErr.generic ("Error reading " ++ d.id ++ ": " ++ "remote error")), d)

/-- What one execution of the retry closure reports to `resource.Retry`:
`nil` (stop with success) or a retryable error (sleep 2 seconds, retry). The
closure in Read never returns a non-retryable error. -/
inductive RetryOutcome where
  | ok : RetryOutcome
  | retryable : RemoteErr → RetryOutcome

/-- The attribute writes Read performs once Get succeeds, in source order.
`summary` is not declared in the schema, so its write is a failing no-op whose
error the source ignores; the `extension_objects` write's error is logged as a
warning; the `extension_schema` write passes the reference pointer where the
schema declares a string, so it too is a failing no-op with the error ignored;
the config blob is unmarshalled with the error discarded and the six sync
attributes written from whatever the struct then holds. -/
def readSuccessSets (extension : Extension) (d : ResourceData) (log : List String) :
    ResourceData × List String :=
  let d := (setAttr d "summary" (AttrVal.str extension.summary)).1
  let d := (setAttr d "name" (AttrVal.str extension.name)).1
  let d := (setAttr d "endpoint_url" (AttrVal.str extension.endpointURL)).1
  let d := (setAttr d "html_url" (AttrVal.str extension.htmlURL)).1
  let res := setAttr d "extension_objects"
    (AttrVal.strList (flattenExtensionServicenowObjects extension.extensionObjects))
  let log := match res.2 with
    | some msg => log ++ ["[WARN] error setting extension_objects: " ++ msg]
    | none => log
  let d := res.1
  let d := (setAttr d "extension_schema" (AttrVal.ref extension.extensionSchema)).1
  let config := (unmarshalConfig extension.config).1
  let d := (setAttr d "snow_user" (AttrVal.str config.user)).1
  let d := (setAttr d "snow_password" (AttrVal.str config.password)).1
  let d := (setAttr d "sync_options" (AttrVal.str config.syncOptions)).1
  let d := (setAttr d "target" (AttrVal.str config.target)).1
  let d := (setAttr d "task_type" (AttrVal.str config.taskType)).1
  let d := (setAttr d "referer" (AttrVal.str config.referer)).1
  (d, log)

/-- One execution of the closure Read hands to `resource.Retry`: Get the
extension; on error run the not-found classifier and either finish (genuine
absence, identity already cleared) or report a retryable error; on success
perform the attribute writes and finish. -/
def readAttempt (client : Client) (d : ResourceData) (log : List String) :
    RetryOutcome × ResourceData × List String :=
  match client.get d.id with
  | Except.error err =>
    let res := handleNotFoundError err d
    match res.1 with
    | some errResp => (RetryOutcome.retryable errResp, res.2, log)
    | none => (RetryOutcome.ok, res.2, log)
  | Except.ok extension =>
    let dl := readSuccessSets extension d log
    (RetryOutcome.ok, dl.1, dl.2)

/-- The result of Read (and of the operations that end in a Read): the
returned error, the resource state, the log, and the number of Get attempts
performed (instrumentation for the retry-bound property). -/
structure ReadResult where
  err : Option RemoteErr
  d : ResourceData
  log : List String
  attempts : Nat
deriving Repr

/-- Modelled from the spec: `resource.Retry(2*time.Minute, closure)` combined
with the closure's own `time.Sleep(2 * time.Second)` before each retryable
return. Time is in whole seconds: the budget starts at 120; each retryable
outcome consumes the 2-second sleep and retries while budget remains; once the
deadline has passed the last retryable error surfaces as the final error.
A `nil` outcome stops immediately with success. -/
def retryLoop (step : ResourceData → List String → RetryOutcome × ResourceData × List String) :
    Nat → ResourceData → List String → ReadResult
  | Nat.succ (Nat.succ n), d, log =>
    match step d log with
    | (RetryOutcome.ok, d', log') => { err := none, d := d', log := log', attempts := 1 }
    | (RetryOutcome.retryable _, d', log') =>
      let r := retryLoop step n d' log'
      { r with attempts := r.attempts + 1 }
  | _, d, log =>
    match step d log with
    | (RetryOutcome.ok, d', log') => { err := none, d := d', log := log', attempts := 1 }
    | (RetryOutcome.retryable e, d', log') => { err := some e, d := d', log := log', attempts := 1 }

/-- `resourcePagerDutyExtensionServicenowRead`: logs, then runs the Get
closure under the 2-minute retry budget. -/
def resourcePagerDutyExtensionServicenowRead (client : Client) (d : ResourceData)
    (log : List String) : ReadResult :=
  let log := log ++ ["[INFO] Reading PagerDuty extension " ++ d.id]
  retryLoop (readAttempt client) 120 d log

/-- `resourcePagerDutyExtensionServicenowCreate`: builds the payload, creates
it remotely (propagating any error), stores the returned identifier, then
performs a full Read. -/
def resourcePagerDutyExtensionServicenowCreate (client : Client) (d : ResourceData)
    (log : List String) : Option RemoteErr × ResourceData × List String :=
  let extension := buildExtensionServicenowStruct d
  let log := log ++ ["[INFO] Creating PagerDuty extension " ++ extension.name]
  match client.create extension with
  | Except.error err => (some err, d, log)
  | Except.ok created =>
    let d := { d with id := created.id }
    let r := resourcePagerDutyExtensionServicenowRead client d log
    (r.err, r.d, r.log)

/-- `resourcePagerDutyExtensionServicenowUpdate`: rebuilds the payload,
updates remotely (propagating any error), then performs a full Read. -/
def resourcePagerDutyExtensionServicenowUpdate (client : Client) (d : ResourceData)
    (log : List String) : Option RemoteErr × ResourceData × List String :=
  let extension := buildExtensionServicenowStruct d
  let log := log ++ ["[INFO] Updating PagerDuty extension " ++ d.id]
  match client.update d.id extension with
  | Except.error err => (some err, d, log)
  | Except.ok _ =>
    let r := resourcePagerDutyExtensionServicenowRead client d log
    (r.err, r.d, r.log)

/-- `resourcePagerDutyExtensionServicenowDelete`: deletes remotely; a typed
error with code 5001 is logged and treated as success with the state left as
it is; any other error is returned; on client success the identity is
cleared. -/
def resourcePagerDutyExtensionServicenowDelete (client : Client) (d : ResourceData)
    (log : List String) : Option RemoteErr × ResourceData × List String :=
  let log := log ++ ["[INFO] Deleting PagerDuty extension " ++ d.id]
  match client.delete d.id with
  | Except.error err =>
    if errCode5001 err then
      (none, d, log ++ ["[WARN] Extension (" ++ d.id ++ ") not found, removing from state"])
    else
      (some err, d, log)
  | Except.ok _ => (none, { d with id := "" }, log)

/-- `resourcePagerDutyExtensionServicenowImport`: a direct Get (no retry);
any Get failure is replaced by a fixed import-error message; on success it
writes endpoint URL, the first target object's identifier as a singleton set,
and the schema reference identifier. The unchecked `ExtensionObjects[0]` index
and `ExtensionSchema` dereference are Go panics on an empty list or nil
pointer; `none` models the panic (the operation produces no result at all). -/
def resourcePagerDutyExtensionServicenowImport (client : Client) (d : ResourceData) :
    Option (Except RemoteErr ResourceData) :=
  match client.get d.id with
  | Except.error _ =>
    some (Except.error (RemoteErr.generic
      "error importing pagerduty_extension. Expecting an importation ID for extension"))
  | Except.ok extension =>
    match extension.extensionObjects[0]?, extension.extensionSchema with
    | some firstObj, some schemaRef =>
      let d := (setAttr d "endpoint_url" (AttrVal.str extension.endpointURL)).1
      let d := (setAttr d "extension_objects" (AttrVal.strList [firstObj.id])).1
      let d := (setAttr d "extension_schema" (AttrVal.str schemaRef.id)).1
      some (Except.ok d)
    | _, _ => none

theorem setAttr_summary (d : ResourceData) (s : String) :
    setAttr d "summary" (AttrVal.str s) = (d, some "Invalid or unknown key: summary") := rfl

theorem setAttr_name (d : ResourceData) (s : String) :
    setAttr d "name" (AttrVal.str s) = ({ d with name := s }, none) := rfl

theorem setAttr_endpoint_url (d : ResourceData) (s : String) :
    setAttr d "endpoint_url" (AttrVal.str s) = ({ d with endpointURL := s }, none) := rfl

theorem setAttr_html_url (d : ResourceData) (s : String) :
    setAttr d "html_url" (AttrVal.str s) = ({ d with htmlURL := s }, none) := rfl

theorem setAttr_extension_objects (d : ResourceData) (l : List String) :
    setAttr d "extension_objects" (AttrVal.strList l) = ({ d with extensionObjects := l }, none) := rfl

theorem setAttr_extension_schema_ref (d : ResourceData) (r : Option ExtensionSchemaReference) :
    setAttr d "extension_schema" (AttrVal.ref r) =
      (d, some "expected type string for key: extension_schema") := rfl

theorem setAttr_extension_schema_str (d : ResourceData) (s : String) :
    setAttr d "extension_schema" (AttrVal.str s) = ({ d with extensionSchema := s }, none) := rfl

theorem setAttr_snow_user (d : ResourceData) (s : String) :
    setAttr d "snow_user" (AttrVal.str s) = ({ d with snowUser := s }, none) := rfl

theorem setAttr_snow_password (d : ResourceData) (s : String) :
    setAttr d "snow_password" (AttrVal.str s) = ({ d with snowPassword := s }, none) := rfl

theorem setAttr_sync_options (d : ResourceData) (s : String) :
    setAttr d "sync_options" (AttrVal.str s) = ({ d with syncOptions := s }, none) := rfl

theorem setAttr_target (d : ResourceData) (s : String) :
    setAttr d "target" (AttrVal.str s) = ({ d with target := s }, none) := rfl

theorem setAttr_task_type (d : ResourceData) (s : String) :
    setAttr d "task_type" (AttrVal.str s) = ({ d with taskType := s }, none) := rfl

theorem setAttr_referer (d : ResourceData) (s : String) :
    setAttr d "referer" (AttrVal.str s) = ({ d with referer := s }, none) := rfl

theorem readSuccessSets_eq (extension : Extension) (d : ResourceData) (log : List String) :
    readSuccessSets extension d log =
      ({ d with
          name := extension.name
          endpointURL := extension.endpointURL
          htmlURL := extension.htmlURL
          extensionObjects := flattenExtensionServicenowObjects extension.extensionObjects
          snowUser := (unmarshalConfig extension.config).1.user
          snowPassword := (unmarshalConfig extension.config).1.password
          syncOptions := (unmarshalConfig extension.config).1.syncOptions
          target := (unmarshalConfig extension.config).1.target
          taskType := (unmarshalConfig extension.config).1.taskType
          referer := (unmarshalConfig extension.config).1.referer },
       log) := by
  simp [readSuccessSets, setAttr_summary, setAttr_name, setAttr_endpoint_url, setAttr_html_url,
    setAttr_extension_objects, setAttr_extension_schema_ref, setAttr_snow_user,
    setAttr_snow_password, setAttr_sync_options, setAttr_target, setAttr_task_type,
    setAttr_referer]

theorem retryLoop_ok
    (step : ResourceData → List String → RetryOutcome × ResourceData × List String)
    (n : Nat) (d d' : ResourceData) (log log' : List String)
    (h : step d log = (RetryOutcome.ok, d', log')) :
    retryLoop step n d log = { err := none, d := d', log := log', attempts := 1 } := by
  match n with
  | 0 => simp [retryLoop, h]
  | 1 => simp [retryLoop, h]
  | Nat.succ (Nat.succ m) => simp [retryLoop, h]

theorem flatten_expand (l : List String) :
    flattenExtensionServicenowObjects (expandServiceNowServiceObjects l) = l := by
  induction l with
  | nil => rfl
  | cons a rest ih =>
    simp only [expandServiceNowServiceObjects, List.map_cons] at *
    simpa [flattenExtensionServicenowObjects] using ih

theorem retryLoop_all_retryable
    (step : ResourceData → List String → RetryOutcome × ResourceData × List String)
    (h : ∀ d log, ∃ e d' log', step d log = (RetryOutcome.retryable e, d', log')) :
    ∀ n d log, (retryLoop step n d log).err.isSome = true ∧
      (retryLoop step n d log).attempts = n / 2 + 1 := by
  intro n
  induction n using Nat.strong_induction_on with
  | _ n ih =>
    intro d log
    match n with
    | 0 =>
      obtain ⟨e, d', log', hs⟩ := h d log
      simp [retryLoop, hs]
    | 1 =>
      obtain ⟨e, d', log', hs⟩ := h d log
      simp [retryLoop, hs]
    | Nat.succ (Nat.succ m) =>
      obtain ⟨e, d', log', hs⟩ := h d log
      have hm := ih m (by omega) d' log'
      refine ⟨?_, ?_⟩
      · simpa [retryLoop, hs] using hm.1
      · have h2 := hm.2
        simp [retryLoop, hs, h2]
        omega

/-- A concrete declared state used by the concrete-input theorems. -/
def d0 : ResourceData :=
  { id := "abc", name := "N", htmlURL := "", type := "", endpointURL := "https://e",
    extensionObjects := ["S1"], extensionSchema := "SCHEMA1", snowUser := "u",
    snowPassword := "p", syncOptions := "sync_all", target := "incident",
    taskType := "incident", referer := "None" }

/-- A client whose Get always reports the remote HTTP not-found status. -/
def clientGone404 : Client :=
  { create := fun _ => Except.error (RemoteErr.generic "unused")
    get := fun _ => Except.error (RemoteErr.typed 404 2100 "Not Found")
    update := fun _ _ => Except.error (RemoteErr.generic "unused")
    delete := fun _ => Except.error (RemoteErr.generic "unused") }

/-- A client whose every call fails with a plain transient error. -/
def clientBoom : Client :=
  { create := fun _ => Except.error (RemoteErr.generic "boom")
    get := fun _ => Except.error (RemoteErr.generic "boom")
    update := fun _ _ => Except.error (RemoteErr.generic "boom")
    delete := fun _ => Except.error (RemoteErr.generic "boom") }

/-- Claim C1: for every SyncConfig record, serializing it into the opaque
config payload and deserializing that payload back yields the original record,
field for field (and the deserialization reports no error). -/
theorem claim_C1_config_round_trip (c : PagerDutyExtensionServicenowConfig) :
    (unmarshalConfig (serializeConfig c)).1 = c ∧
    (unmarshalConfig (serializeConfig c)).2 = true := by
  simp [unmarshal_serialize]

/-- Claim C3: if Get fails with an error the not-found classifier recognizes
as genuine absence, Read clears the tracked resource identity and returns
success (no error). -/
theorem claim_C3_read_not_found_clears (client : Client) (d : ResourceData)
    (log : List String) (e : RemoteErr)
    (hg : client.get d.id = Except.error e)
    (hnf : e.isNotFound = true) :
    (resourcePagerDutyExtensionServicenowRead client d log).err = none ∧
    (resourcePagerDutyExtensionServicenowRead client d log).d = { d with id := "" } := by
  have hstep : readAttempt client d (log ++ ["[INFO] Reading PagerDuty extension " ++ d.id]) =
      (RetryOutcome.ok, { d with id := "" },
        log ++ ["[INFO] Reading PagerDuty extension " ++ d.id]) := by
    simp [readAttempt, hg, handleNotFoundError, hnf]
  have hread : resourcePagerDutyExtensionServicenowRead client d log =
      { err := none, d := { d with id := "" },
        log := log ++ ["[INFO] Reading PagerDuty extension " ++ d.id], attempts := 1 } :=
    retryLoop_ok _ _ _ _ _ _ hstep
  simp [hread]

theorem claim_C3_witness :
    clientGone404.get d0.id = Except.error (RemoteErr.typed 404 2100 "Not Found") ∧
    RemoteErr.isNotFound (RemoteErr.typed 404 2100 "Not Found") = true ∧
    (resourcePagerDutyExtensionServicenowRead clientGone404 d0 []).err = none ∧
    (resourcePagerDutyExtensionServicenowRead clientGone404 d0 []).d = { d0 with id := "" } :=
  ⟨rfl, rfl,
    claim_C3_read_not_found_clears clientGone404 d0 [] (RemoteErr.typed 404 2100 "Not Found")
      rfl rfl⟩

/-- Claim C4: flattening keeps exactly the identifiers of the references
tagged service_reference, in their original relative order, and drops every
reference with any other tag. -/
theorem claim_C4_flatten_filters (l : List ServiceReference) :
    flattenExtensionServicenowObjects l =
      (l.filter (fun s => s.type == "service_reference")).map (fun s => s.id) := by
  induction l with
  | nil => rfl
  | cons a rest ih =>
    by_cases h : a.type = "service_reference" <;>
      simp [flattenExtensionServicenowObjects, List.filter_cons, h, ih]

/-- Claim C5: if every Get fails with a retryable-transient error (not
classified as absence), Read terminates with a final error after the 2-minute
budget — exactly 61 Get attempts, each retry separated by the 2-second sleep
built into the loop model — rather than retrying forever; and a Get error that
the classifier does recognize as absence causes no retry at all (one single
attempt). -/
theorem claim_C5_retry_bound (client : Client) (d : ResourceData) (log : List String) :
    ((∀ i, ∃ e, client.get i = Except.error e ∧ e.isNotFound = false) →
      (resourcePagerDutyExtensionServicenowRead client d log).err.isSome = true ∧
      (resourcePagerDutyExtensionServicenowRead client d log).attempts = 61) ∧
    (∀ e, client.get d.id = Except.error e → e.isNotFound = true →
      (resourcePagerDutyExtensionServicenowRead client d log).attempts = 1) := by
  constructor
  · intro h
    have hstep : ∀ d' log', ∃ e2 d2 log2,
        readAttempt client d' log' = (RetryOutcome.retryable e2, d2, log2) := by
      intro d' log'
      obtain ⟨e, hg, hnf⟩ := h d'.id
      refine ⟨RemoteErr.generic ("Error reading " ++ d'.id ++ ": " ++ "remote error"),
        d', log', ?_⟩
      simp [readAttempt, hg, handleNotFoundError, hnf]
    have hall := retryLoop_all_retryable (readAttempt client) hstep 120 d
      (log ++ ["[INFO] Reading PagerDuty extension " ++ d.id])
    refine ⟨?_, ?_⟩
    · simpa [resourcePagerDutyExtensionServicenowRead] using hall.1
    · simpa [resourcePagerDutyExtensionServicenowRead] using hall.2
  · intro e hg hnf
    have hstep : readAttempt client d (log ++ ["[INFO] Reading PagerDuty extension " ++ d.id]) =
        (RetryOutcome.ok, { d with id := "" },
          log ++ ["[INFO] Reading PagerDuty extension " ++ d.id]) := by
      simp [readAttempt, hg, handleNotFoundError, hnf]
    have hread := retryLoop_ok (readAttempt client) 120 d { d with id := "" }
      (log ++ ["[INFO] Reading PagerDuty extension " ++ d.id])
      (log ++ ["[INFO] Reading PagerDuty extension " ++ d.id]) hstep
    simpa [resourcePagerDutyExtensionServicenowRead] using congrArg ReadResult.attempts hread

theorem claim_C5_witness :
    ((resourcePagerDutyExtensionServicenowRead clientBoom d0 []).err.isSome = true ∧
      (resourcePagerDutyExtensionServicenowRead clientBoom d0 []).attempts = 61) ∧
    (resourcePagerDutyExtensionServicenowRead clientGone404 d0 []).attempts = 1 :=
  ⟨(claim_C5_retry_bound clientBoom d0 []).1
      (fun _ => ⟨RemoteErr.generic "boom", rfl, rfl⟩),
   (claim_C5_retry_bound clientGone404 d0 []).2 (RemoteErr.typed 404 2100 "Not Found") rfl rfl⟩

/-- Claim C6: a successful Import writes exactly three attributes — the
endpoint URL, the singleton target-object set holding the first target
object's identifier, and the schema reference identifier — and leaves every
other attribute of the state untouched. -/
theorem claim_C6_import_partial_seed (client : Client) (d : ResourceData) (ext : Extension)
    (a : ServiceReference) (rest : List ServiceReference) (sr : ExtensionSchemaReference)
    (hg : client.get d.id = Except.ok ext)
    (hobj : ext.extensionObjects = a :: rest)
    (hsch : ext.extensionSchema = some sr) :
    resourcePagerDutyExtensionServicenowImport client d =
      some (Except.ok { d with endpointURL := ext.endpointURL,
                               extensionObjects := [a.id],
                               extensionSchema := sr.id }) := by
  simp [resourcePagerDutyExtensionServicenowImport, hg, hobj, hsch,
    setAttr_endpoint_url, setAttr_extension_objects, setAttr_extension_schema_str]

/-- Claim C10: when Get succeeds but the fetched extension's target-object
list is empty, Import's unchecked first-element access is out of bounds: the
operation panics (models as `none`) instead of returning an error. -/
theorem claim_C10_import_empty_objects_panics (client : Client) (d : ResourceData)
    (ext : Extension)
    (hg : client.get d.id = Except.ok ext)
    (hobj : ext.extensionObjects = []) :
    resourcePagerDutyExtensionServicenowImport client d = none := by
  cases hsch : ext.extensionSchema <;>
    simp [resourcePagerDutyExtensionServicenowImport, hg, hobj, hsch]

/-- A concrete remote extension with two service-reference target objects. -/
def extAB : Extension :=
  { id := "abc", summary := "sum", name := "RN", type := "extension",
    endpointURL := "https://remote-endpoint", htmlURL := "https://remote-html",
    extensionSchema := some { type := "extension_schema_reference", id := "SCHEMA1" },
    extensionObjects := [{ type := "service_reference", id := "A" },
                         { type := "service_reference", id := "B" }],
    config := serializeConfig
      { user := "u", password := "p", syncOptions := "sync_all", target := "incident",
        taskType := "incident", referer := "None" } }

/-- A client whose Get returns `extAB`. -/
def clientAB : Client :=
  { create := fun _ => Except.error (RemoteErr.generic "unused")
    get := fun _ => Except.ok extAB
    update := fun _ _ => Except.error (RemoteErr.generic "unused")
    delete := fun _ => Except.error (RemoteErr.generic "unused") }

/-- `extAB` with an empty target-object list. -/
def extEmpty : Extension := { extAB with extensionObjects := [] }

/-- A client whose Get returns `extEmpty`. -/
def clientEmpty : Client := { clientAB with get := fun _ => Except.ok extEmpty }

/-- The typed already-gone error Delete treats as success. -/
def gone5001 : RemoteErr := RemoteErr.typed 400 5001 "Extension not found"

/-- A client whose Delete fails with the code-5001 already-gone error. -/
def clientGone5001 : Client := { clientAB with delete := fun _ => Except.error gone5001 }

theorem claim_C6_witness :
    clientAB.get d0.id = Except.ok extAB ∧
    extAB.extensionObjects = { type := "service_reference", id := "A" } ::
      [{ type := "service_reference", id := "B" }] ∧
    extAB.extensionSchema = some { type := "extension_schema_reference", id := "SCHEMA1" } ∧
    resourcePagerDutyExtensionServicenowImport clientAB d0 =
      some (Except.ok { d0 with endpointURL := extAB.endpointURL,
                                extensionObjects := ["A"],
                                extensionSchema := "SCHEMA1" }) :=
  ⟨rfl, rfl, rfl,
    claim_C6_import_partial_seed clientAB d0 extAB { type := "service_reference", id := "A" }
      [{ type := "service_reference", id := "B" }]
      { type := "extension_schema_reference", id := "SCHEMA1" } rfl rfl rfl⟩

theorem claim_C10_witness :
    clientEmpty.get d0.id = Except.ok extEmpty ∧
    extEmpty.extensionObjects = [] ∧
    resourcePagerDutyExtensionServicenowImport clientEmpty d0 = none :=
  ⟨rfl, rfl, claim_C10_import_empty_objects_panics clientEmpty d0 extEmpty rfl rfl⟩

/-- Claim C2 counterexample: Delete against a client failing with the typed
code-5001 error returns success, yet the tracked identity is NOT cleared by
the operation — the state still holds the identifier "abc". -/
theorem claim_C2_counterexample :
    (resourcePagerDutyExtensionServicenowDelete clientGone5001 d0 []).1 = none ∧
    (resourcePagerDutyExtensionServicenowDelete clientGone5001 d0 []).2.1.id = "abc" ∧
    "abc" ≠ "" := by
  decide

/-- Claim C2 (amended): a Delete error carrying code 5001 yields success with
the state left untouched (the identity is not cleared by this function, which
merely logs the removal and relies on the caller to drop the resource); a
client-level success yields success with the identity cleared; any Delete
error other than code 5001 is returned to the caller. -/
theorem claim_C2_delete_classification (client : Client) (d : ResourceData)
    (log : List String) :
    (∀ e, client.delete d.id = Except.error e → errCode5001 e = true →
      resourcePagerDutyExtensionServicenowDelete client d log =
        (none, d, log ++ ["[INFO] Deleting PagerDuty extension " ++ d.id]
          ++ ["[WARN] Extension (" ++ d.id ++ ") not found, removing from state"])) ∧
    (∀ u, client.delete d.id = Except.ok u →
      resourcePagerDutyExtensionServicenowDelete client d log =
        (none, { d with id := "" },
          log ++ ["[INFO] Deleting PagerDuty extension " ++ d.id])) ∧
    (∀ e, client.delete d.id = Except.error e → errCode5001 e = false →
      resourcePagerDutyExtensionServicenowDelete client d log =
        (some e, d, log ++ ["[INFO] Deleting PagerDuty extension " ++ d.id])) := by
  refine ⟨?_, ?_, ?_⟩
  · intro e he h5
    simp [resourcePagerDutyExtensionServicenowDelete, he, h5]
  · intro u hu
    simp [resourcePagerDutyExtensionServicenowDelete, hu]
  · intro e he h5
    simp [resourcePagerDutyExtensionServicenowDelete, he, h5]

theorem claim_C2_witness :
    clientGone5001.delete d0.id = Except.error gone5001 ∧
    errCode5001 gone5001 = true ∧
    resourcePagerDutyExtensionServicenowDelete clientGone5001 d0 [] =
      (none, d0, ["[INFO] Deleting PagerDuty extension abc",
        "[WARN] Extension (abc) not found, removing from state"]) :=
  ⟨rfl, rfl, (claim_C2_delete_classification clientGone5001 d0 []).1 gone5001 rfl rfl⟩

/-- Claim C7 counterexample: the Get performed by Import fails with the error
"boom", but Import returns a fixed import-error message instead of propagating
the original error unmodified. -/
theorem claim_C7_counterexample :
    clientBoom.get d0.id = Except.error (RemoteErr.generic "boom") ∧
    resourcePagerDutyExtensionServicenowImport clientBoom d0 =
      some (Except.error (RemoteErr.generic
        "error importing pagerduty_extension. Expecting an importation ID for extension")) ∧
    RemoteErr.generic
        "error importing pagerduty_extension. Expecting an importation ID for extension" ≠
      RemoteErr.generic "boom" := by
  refine ⟨rfl, rfl, ?_⟩
  decide

/-- Claim C7 (amended): errors returned by the remote client from Create,
Update, and a Delete whose code is not 5001 are propagated to the caller
unmodified; the Get failure inside Import, however, is NOT propagated — it is
replaced by a fixed import-error message. -/
theorem claim_C7_fatal_propagation (c1 c2 c3 c4 : Client) (d : ResourceData)
    (log : List String) (e : RemoteErr)
    (hc : c1.create (buildExtensionServicenowStruct d) = Except.error e)
    (hu : c2.update d.id (buildExtensionServicenowStruct d) = Except.error e)
    (hd : c3.delete d.id = Except.error e) (h5 : errCode5001 e = false)
    (hgerr : ∃ e2, c4.get d.id = Except.error e2) :
    (resourcePagerDutyExtensionServicenowCreate c1 d log).1 = some e ∧
    (resourcePagerDutyExtensionServicenowUpdate c2 d log).1 = some e ∧
    (resourcePagerDutyExtensionServicenowDelete c3 d log).1 = some e ∧
    resourcePagerDutyExtensionServicenowImport c4 d =
      some (Except.error (RemoteErr.generic
        "error importing pagerduty_extension. Expecting an importation ID for extension")) := by
  obtain ⟨e2, hg⟩ := hgerr
  refine ⟨?_, ?_, ?_, ?_⟩
  · simp [resourcePagerDutyExtensionServicenowCreate, hc]
  · simp [resourcePagerDutyExtensionServicenowUpdate, hu]
  · simp [resourcePagerDutyExtensionServicenowDelete, hd, h5]
  · simp [resourcePagerDutyExtensionServicenowImport, hg]

theorem claim_C7_witness :
    (resourcePagerDutyExtensionServicenowCreate clientBoom d0 []).1 =
      some (RemoteErr.generic "boom") ∧
    (resourcePagerDutyExtensionServicenowUpdate clientBoom d0 []).1 =
      some (RemoteErr.generic "boom") ∧
    (resourcePagerDutyExtensionServicenowDelete clientBoom d0 []).1 =
      some (RemoteErr.generic "boom") ∧
    resourcePagerDutyExtensionServicenowImport clientBoom d0 =
      some (Except.error (RemoteErr.generic
        "error importing pagerduty_extension. Expecting an importation ID for extension")) :=
  claim_C7_fatal_propagation clientBoom clientBoom clientBoom clientBoom d0 []
    (RemoteErr.generic "boom") rfl rfl rfl rfl ⟨RemoteErr.generic "boom", rfl⟩

/-- `extAB` with a config blob that is not a JSON object, so it fails to
deserialize into the sync-config struct. -/
def extBadCfg : Extension := { extAB with config := JsonValue.str "junk" }

/-- A client whose Get returns `extBadCfg`. -/
def clientBadCfg : Client := { clientAB with get := fun _ => Except.ok extBadCfg }

/-- Claim C9 counterexample: the fetched config blob fails to deserialize; the
Read still succeeds and writes the non-config fields, but NO warning is logged
for the failure — the whole log of the Read is the single INFO line. -/
theorem claim_C9_counterexample :
    (unmarshalConfig extBadCfg.config).2 = false ∧
    (resourcePagerDutyExtensionServicenowRead clientBadCfg d0 []).err = none ∧
    (resourcePagerDutyExtensionServicenowRead clientBadCfg d0 []).d.name = "RN" ∧
    (resourcePagerDutyExtensionServicenowRead clientBadCfg d0 []).d.endpointURL =
      "https://remote-endpoint" ∧
    (resourcePagerDutyExtensionServicenowRead clientBadCfg d0 []).d.htmlURL =
      "https://remote-html" ∧
    (resourcePagerDutyExtensionServicenowRead clientBadCfg d0 []).d.extensionObjects =
      ["A", "B"] ∧
    (resourcePagerDutyExtensionServicenowRead clientBadCfg d0 []).log =
      ["[INFO] Reading PagerDuty extension abc"] := by
  decide

/-- Claim C9 (amended): when the fetched config blob fails to deserialize, the
failure is silently discarded — nothing is logged for it, the Read's log gains
only the INFO line — the Read still returns success, and the non-config
observed fields (name, endpoint URL, HTML URL, flattened target-object list;
the schema write is the source's usual failing no-op leaving the declared
value) are still written. -/
theorem claim_C9_deser_failure_degraded (client : Client) (d : ResourceData)
    (log : List String) (ext : Extension)
    (hg : client.get d.id = Except.ok ext)
    (_hbad : (unmarshalConfig ext.config).2 = false) :
    (resourcePagerDutyExtensionServicenowRead client d log).err = none ∧
    (resourcePagerDutyExtensionServicenowRead client d log).d.name = ext.name ∧
    (resourcePagerDutyExtensionServicenowRead client d log).d.endpointURL = ext.endpointURL ∧
    (resourcePagerDutyExtensionServicenowRead client d log).d.htmlURL = ext.htmlURL ∧
    (resourcePagerDutyExtensionServicenowRead client d log).d.extensionObjects =
      flattenExtensionServicenowObjects ext.extensionObjects ∧
    (resourcePagerDutyExtensionServicenowRead client d log).d.extensionSchema =
      d.extensionSchema ∧
    (resourcePagerDutyExtensionServicenowRead client d log).log =
      log ++ ["[INFO] Reading PagerDuty extension " ++ d.id] := by
  have hread : resourcePagerDutyExtensionServicenowRead client d log =
      { err := none,
        d := { d with
          name := ext.name
          endpointURL := ext.endpointURL
          htmlURL := ext.htmlURL
          extensionObjects := flattenExtensionServicenowObjects ext.extensionObjects
          snowUser := (unmarshalConfig ext.config).1.user
          snowPassword := (unmarshalConfig ext.config).1.password
          syncOptions := (unmarshalConfig ext.config).1.syncOptions
          target := (unmarshalConfig ext.config).1.target
          taskType := (unmarshalConfig ext.config).1.taskType
          referer := (unmarshalConfig ext.config).1.referer }
        log := log ++ ["[INFO] Reading PagerDuty extension " ++ d.id], attempts := 1 } := by
    exact retryLoop_ok (readAttempt client) 120 d _
      (log ++ ["[INFO] Reading PagerDuty extension " ++ d.id]) _
      (by simp [readAttempt, hg, readSuccessSets_eq])
  simp [hread]

theorem claim_C9_witness :
    clientBadCfg.get d0.id = Except.ok extBadCfg ∧
    (unmarshalConfig extBadCfg.config).2 = false ∧
    (resourcePagerDutyExtensionServicenowRead clientBadCfg d0 []).err = none ∧
    (resourcePagerDutyExtensionServicenowRead clientBadCfg d0 []).d.name = extBadCfg.name ∧
    (resourcePagerDutyExtensionServicenowRead clientBadCfg d0 []).log =
      [] ++ ["[INFO] Reading PagerDuty extension " ++ d0.id] := by
  have h := claim_C9_deser_failure_degraded clientBadCfg d0 [] extBadCfg rfl rfl
  exact ⟨rfl, rfl, h.1, h.2.1, h.2.2.2.2.2.2⟩

/-- Claim C8: when Create succeeds with declared config C and the server
echoes the stored payload back on the subsequent Get (name, endpoint URL and
config blob as sent, with a server-assigned non-empty identifier and HTML
URL), the Read performed by Create yields observed state whose name, endpoint
URL, schema reference and six sync fields equal C's, while the identifier and
HTML URL are merely non-empty. -/
theorem claim_C8_create_then_read (client : Client) (d : ResourceData) (log : List String)
    (created ext : Extension)
    (hc : client.create (buildExtensionServicenowStruct d) = Except.ok created)
    (hid : created.id ≠ "")
    (hg : client.get created.id = Except.ok ext)
    (hname : ext.name = d.name)
    (hurl : ext.endpointURL = d.endpointURL)
    (hhtml : ext.htmlURL ≠ "")
    (hcfg : ext.config = serializeConfig
      { user := d.snowUser, password := d.snowPassword, syncOptions := d.syncOptions,
        target := d.target, taskType := d.taskType, referer := d.referer }) :
    (resourcePagerDutyExtensionServicenowCreate client d log).1 = none ∧
    (resourcePagerDutyExtensionServicenowCreate client d log).2.1.name = d.name ∧
    (resourcePagerDutyExtensionServicenowCreate client d log).2.1.endpointURL =
      d.endpointURL ∧
    (resourcePagerDutyExtensionServicenowCreate client d log).2.1.extensionSchema =
      d.extensionSchema ∧
    (resourcePagerDutyExtensionServicenowCreate client d log).2.1.snowUser = d.snowUser ∧
    (resourcePagerDutyExtensionServicenowCreate client d log).2.1.snowPassword =
      d.snowPassword ∧
    (resourcePagerDutyExtensionServicenowCreate client d log).2.1.syncOptions =
      d.syncOptions ∧
    (resourcePagerDutyExtensionServicenowCreate client d log).2.1.target = d.target ∧
    (resourcePagerDutyExtensionServicenowCreate client d log).2.1.taskType = d.taskType ∧
    (resourcePagerDutyExtensionServicenowCreate client d log).2.1.referer = d.referer ∧
    (resourcePagerDutyExtensionServicenowCreate client d log).2.1.id ≠ "" ∧
    (resourcePagerDutyExtensionServicenowCreate client d log).2.1.htmlURL ≠ "" := by
  have hread : resourcePagerDutyExtensionServicenowRead client { d with id := created.id }
      (log ++ ["[INFO] Creating PagerDuty extension " ++
        (buildExtensionServicenowStruct d).name]) =
      { err := none,
        d := { d with
          id := created.id
          name := ext.name
          endpointURL := ext.endpointURL
          htmlURL := ext.htmlURL
          extensionObjects := flattenExtensionServicenowObjects ext.extensionObjects
          snowUser := (unmarshalConfig ext.config).1.user
          snowPassword := (unmarshalConfig ext.config).1.password
          syncOptions := (unmarshalConfig ext.config).1.syncOptions
          target := (unmarshalConfig ext.config).1.target
          taskType := (unmarshalConfig ext.config).1.taskType
          referer := (unmarshalConfig ext.config).1.referer }
        log := log ++ ["[INFO] Creating PagerDuty extension " ++
            (buildExtensionServicenowStruct d).name]
          ++ ["[INFO] Reading PagerDuty extension " ++ created.id],
        attempts := 1 } := by
    exact retryLoop_ok (readAttempt client) 120 { d with id := created.id } _ _ _
      (by simp [readAttempt, hg, readSuccessSets_eq])
  have hmain : resourcePagerDutyExtensionServicenowCreate client d log =
      ((resourcePagerDutyExtensionServicenowRead client { d with id := created.id }
          (log ++ ["[INFO] Creating PagerDuty extension " ++
            (buildExtensionServicenowStruct d).name])).err,
       (resourcePagerDutyExtensionServicenowRead client { d with id := created.id }
          (log ++ ["[INFO] Creating PagerDuty extension " ++
            (buildExtensionServicenowStruct d).name])).d,
       (resourcePagerDutyExtensionServicenowRead client { d with id := created.id }
          (log ++ ["[INFO] Creating PagerDuty extension " ++
            (buildExtensionServicenowStruct d).name])).log) := by
    simp [resourcePagerDutyExtensionServicenowCreate, hc]
  rw [hmain, hread]
  simp [hname, hurl, hcfg, unmarshal_serialize, hid, hhtml]

/-- The extension the echo server hands back: the created payload with a
server-assigned identifier and HTML URL. -/
def extEcho : Extension :=
  { buildExtensionServicenowStruct d0 with id := "srv-1", htmlURL := "https://html-1" }

/-- The value returned by the echo server's Create. -/
def createdEcho : Extension := { buildExtensionServicenowStruct d0 with id := "srv-1" }

/-- A client that stores the created payload and echoes it back on Get. -/
def clientEcho : Client :=
  { create := fun e => Except.ok { e with id := "srv-1" }
    get := fun _ => Except.ok extEcho
    update := fun _ _ => Except.ok ()
    delete := fun _ => Except.ok () }

theorem claim_C8_witness :
    clientEcho.create (buildExtensionServicenowStruct d0) = Except.ok createdEcho ∧
    createdEcho.id ≠ "" ∧
    clientEcho.get createdEcho.id = Except.ok extEcho ∧
    extEcho.htmlURL ≠ "" ∧
    (resourcePagerDutyExtensionServicenowCreate clientEcho d0 []).1 = none ∧
    (resourcePagerDutyExtensionServicenowCreate clientEcho d0 []).2.1.name = d0.name ∧
    (resourcePagerDutyExtensionServicenowCreate clientEcho d0 []).2.1.snowUser =
      d0.snowUser ∧
    (resourcePagerDutyExtensionServicenowCreate clientEcho d0 []).2.1.id ≠ "" ∧
    (resourcePagerDutyExtensionServicenowCreate clientEcho d0 []).2.1.htmlURL ≠ "" := by
  have h := claim_C8_create_then_read clientEcho d0 [] createdEcho extEcho rfl (by decide)
    rfl rfl rfl (by decide) rfl
  obtain ⟨h1, h2, h3, h4, h5, h6, h7, h8, h9, h10, h11, h12⟩ := h
  exact ⟨rfl, by decide, rfl, by decide, h1, h2, h5, h11, h12⟩
